import Mathlib

/-!
Verification of `spam_tasks.rs` (package `hello-world-avs`, operator crate):
a periodic dispatch loop that, on each tick of a 6-second interval, generates
a random task name, logs it, and submits a `createNewTask` transaction,
discarding any submission error.

The Rust source is shallowly embedded below.  External collaborators
(the deployment-metadata resolver, the alloy address parser, the eigensdk
signer constructor and the ledger client) are modelled as an `Oracle` of
fallible functions; their concrete behaviour is irrelevant to the claims,
only their success/failure and returned data matter.  The thread-local RNG
of the `rand` crate is modelled as explicit state threaded through the loop;
only the range of `random_range` matters, so it is implemented as a modulus
over an LCG-stepped seed.
-/

namespace SpamTasks

/-- State of the process-local random generator (`rand::rng()`); the source
only relies on `random_range(0..n)` returning a value in `[0, n)`, which the
model realises as `seed % n` followed by an LCG step. -/
structure Rng where
  seed : Nat
  deriving Repr, DecidableEq

/-- One LCG step, truncated to 64 bits as a thread RNG word would be. -/
def Rng.step (r : Rng) : Rng :=
  ⟨(r.seed * 6364136223846793005 + 1442695040888963407) % 2 ^ 64⟩

/-- Model of `rng.random_range(0..n)`: a value in `[0, n)` plus the advanced
generator. The real distribution is abstracted; only the range is used. -/
def Rng.randomRange (r : Rng) (n : Nat) : Nat × Rng :=
  (r.seed % n, r.step)

/-- The fixed adjective pool of `generate_random_name`. -/
def adjectives : List String := ["Quick", "Lazy", "Sleepy", "Noisy", "Hungry"]

/-- The fixed noun pool of `generate_random_name`. -/
def nouns : List String := ["Fox", "Dog", "Cat", "Mouse", "Bear"]

/-- Embedding of `generate_random_name`: picks one adjective, one noun and a
number in `[0, 1000)` and concatenates them with no separators
(`format!("{}{}{}", adjective, noun, number)`). -/
def generate_random_name (r : Rng) : String × Rng :=
  let (ai, r1) := r.randomRange adjectives.length
  let (ni, r2) := r1.randomRange nouns.length
  let (number, r3) := r2.randomRange 1000
  (adjectives.getD ai "" ++ nouns.getD ni "" ++ toString number, r3)

/-- An EVM account address (alloy `Address`, 20 bytes); the claims only need
it as an opaque value produced by parsing, so it is a wrapped `Nat`. -/
structure Address where
  val : Nat
  deriving Repr, DecidableEq

/-- A provider bound to a signing key and an RPC endpoint
(the return value of eigensdk's `get_signer`). Opaque for the claims. -/
structure Signer where
  val : Nat
  deriving Repr, DecidableEq

/-- A pending transaction handle (the value awaited out of `.send()`). -/
structure PendingTx where
  val : Nat
  deriving Repr, DecidableEq

/-- A transaction receipt; `transaction_hash` stands for the 32-byte alloy
`B256` identifier (values below `2 ^ 256`). -/
structure Receipt where
  transaction_hash : Nat
  deriving Repr, DecidableEq

/-- The `addresses` record inside the deployment-metadata file, of which the
source reads only the `swap_manager_service_manager` field (a hex string to
be parsed into an `Address`). -/
structure DeploymentAddresses where
  swap_manager_service_manager : String
  deriving Repr, DecidableEq

/-- The deployment-metadata record returned by
`get_anvil_swap_manager_deployment_data`. -/
structure DeploymentData where
  addresses : DeploymentAddresses
  deriving Repr, DecidableEq

/-- The external world seen by one run of the process.  Every fallible
external step returns `Except String _`: in the source all of them are
erased to the single uniform `eyre::Report` error type (modelled as the
message string), which carries no kind tag for control flow.
`getSigner` is eigensdk code whose source is not in the repository; it is
modelled from the spec: a signing failure (invalid secret) surfaces as the
same uniform recoverable error as the other steps. -/
structure Oracle where
  deploymentData : Except String DeploymentData
  parseAddr : String → Except String Address
  getSigner : String → String → Except String Signer
  send : Address → Signer → String → Except String PendingTx
  getReceipt : PendingTx → Except String Receipt

/-- External calls issued by one submission, in order, used to observe how
often the deployment record is resolved and with which credentials the
signer is constructed. -/
inductive ExtCall where
  | resolveDeployment
  | getSigner (key : String) (rpc : String)
  | send (addr : Address) (name : String)
  | getReceipt
  deriving Repr, DecidableEq

/-- Result channel of one dispatch step.  `ok`/`err` are the two sides of
the `eyre::Result<()>` returned by `create_new_task`; `panicked` models a
Rust panic raised by a `LazyLock` initializer whose `expect` fails (missing
environment variable), which aborts the process outside the `Result`
channel. -/
inductive StepOutcome where
  | ok
  | err (e : String)
  | panicked (msg : String)
  deriving Repr, DecidableEq

/-- Whether an outcome is a process-aborting panic. -/
def StepOutcome.isPanic : StepOutcome → Bool
  | .panicked _ => true
  | _ => false

/-- Everything produced by one call of `create_new_task`: its returned
outcome, the lines it printed to stdout, and the external calls it made. -/
structure SubmissionResult where
  outcome : StepOutcome
  printed : List String
  calls : List ExtCall
  deriving Repr, DecidableEq

/-- The process environment: the values of the `RPC_URL` and `PRIVATE_KEY`
variables read by the two `LazyLock` statics (`none` = variable missing,
so the static's `expect` panics on first dereference). -/
structure Config where
  rpc_url : Option String
  private_key : Option String
  deriving Repr, DecidableEq

/-- Embedding of `create_new_task(rpc_url, task_name)`, step for step:
resolve the deployment record (`?`), parse its service-manager address
(`?`), dereference the `KEY` static (panics if `PRIVATE_KEY` is missing),
construct the signer, send the `createNewTask` call (`.send().await?`),
await the receipt (`.get_receipt().await?`), and on success print the
transaction hash and return `Ok(())`. -/
def create_new_task (O : Oracle) (key? : Option String)
    (rpc_url : String) (task_name : String) : SubmissionResult :=
  match O.deploymentData with
  | .error e => ⟨.err e, [], [.resolveDeployment]⟩
  | .ok hw_data =>
    match O.parseAddr hw_data.addresses.swap_manager_service_manager with
    | .error e => ⟨.err e, [], [.resolveDeployment]⟩
    | .ok addr =>
      match key? with
      | none => ⟨.panicked "failed to retrieve private key", [], [.resolveDeployment]⟩
      | some key =>
        match O.getSigner key rpc_url with
        | .error e => ⟨.err e, [], [.resolveDeployment, .getSigner key rpc_url]⟩
        | .ok pr =>
          match O.send addr pr task_name with
          | .error e =>
            ⟨.err e, [], [.resolveDeployment, .getSigner key rpc_url, .send addr task_name]⟩
          | .ok ptx =>
            match O.getReceipt ptx with
            | .error e =>
              ⟨.err e, [],
                [.resolveDeployment, .getSigner key rpc_url, .send addr task_name, .getReceipt]⟩
            | .ok tx =>
              ⟨.ok, ["Transaction successfull with tx : " ++ toString tx.transaction_hash],
                [.resolveDeployment, .getSigner key rpc_url, .send addr task_name, .getReceipt]⟩

/-- Record of one iteration of the dispatch loop: the generated name, the
lines emitted to the log/console sink (the info log line first, then
whatever the submission printed), the external calls made, the outcome,
and the RNG state handed to the next iteration. -/
structure CycleRecord where
  name : String
  logLines : List String
  calls : List ExtCall
  outcome : StepOutcome
  rng : Rng
  deriving Repr, DecidableEq

/-- One iteration of the loop body of `start_creating_tasks` (after the
tick): generate a name, emit the info log line, dereference the `RPC_URL`
static (panics if the variable is missing), and run `create_new_task`,
whose returned `Result` is discarded (`let _ = ...`). -/
def dispatchCycle (O : Oracle) (cfg : Config) (r : Rng) : CycleRecord :=
  let (random_name, r2) := generate_random_name r
  let infoLine := "Creating new task with name: " ++ random_name
  match cfg.rpc_url with
  | none => ⟨random_name, [infoLine], [], .panicked "failed to retrieve RPC URL", r2⟩
  | some rpc =>
    let sub := create_new_task O cfg.private_key rpc random_name
    ⟨random_name, infoLine :: sub.printed, sub.calls, sub.outcome, r2⟩

/-- The dispatch loop run for (up to) `n` ticks: each iteration appends its
record; a panic aborts the process, so nothing follows a panicked cycle.
An `err` outcome is discarded and the loop continues. -/
def loopRun (O : Oracle) (cfg : Config) : Rng → Nat → List CycleRecord
  | _, 0 => []
  | r, n + 1 =>
    let c := dispatchCycle O cfg r
    if c.outcome.isPanic then [c]
    else c :: loopRun O cfg c.rng n

/-- All lines emitted to the log/console sink over a run, in order. -/
def sinkLines (cs : List CycleRecord) : List String :=
  (cs.map fun c => c.logLines).flatten

/-- Number of deployment-record resolutions performed over a run. -/
def countResolve (cs : List CycleRecord) : Nat :=
  (cs.map fun c => c.calls.count ExtCall.resolveDeployment).sum

/-- Fine-grained events of the loop, with logical time in seconds.
`tick k t` is the completion of the `k`-th `interval.tick().await` at time
`t`; `invokeStart k s` is the start of the `k`-th `create_new_task`
invocation with task name `s`; `invokeEnd k o` is the resolution of that
invocation's outcome.  `tokio::time::interval(Duration::from_secs(6))` is
external code modelled per its documented semantics: the FIRST tick
completes immediately, later ticks are separated by the 6-second period
(submission durations are modelled as zero, so tick `k` is at `6 * k`). -/
inductive Event where
  | tick (k : Nat) (time : Nat)
  | invokeStart (k : Nat) (name : String)
  | invokeEnd (k : Nat) (outcome : StepOutcome)
  deriving Repr, DecidableEq

/-- Whether an event is the start of invocation number `j`. -/
def isInvokeStartFor (j : Nat) : Event → Bool
  | .invokeStart i _ => i == j
  | _ => false

/-- Event trace of the loop with a fully present configuration, starting at
cycle index `k`, for `n` further cycles: each iteration awaits its tick,
then starts exactly one submission, then awaits its outcome before looping
(the source awaits `create_new_task` inline; nothing is spawned). -/
def eventTraceFrom (O : Oracle) (u key : String) : Rng → Nat → Nat → List Event
  | _, _, 0 => []
  | r, k, n + 1 =>
    let c := dispatchCycle O ⟨some u, some key⟩ r
    Event.tick k (6 * k) :: Event.invokeStart k c.name :: Event.invokeEnd k c.outcome ::
      eventTraceFrom O u key c.rng (k + 1) n

/-- Event trace of a run of `n` cycles from process start. -/
def eventTrace (O : Oracle) (u key : String) (r : Rng) (n : Nat) : List Event :=
  eventTraceFrom O u key r 0 n

/-- A representative well-formed configuration used for concrete runs. -/
def cfg0 : Config := ⟨some "http://localhost:8545", some "0xkey"⟩

/-- A representative initial RNG state. -/
def rng0 : Rng := ⟨0⟩

/-- An oracle on which every submission succeeds, with receipt hash
`0xABC`. -/
def okOracle : Oracle where
  deploymentData := .ok ⟨⟨"0x1111"⟩⟩
  parseAddr := fun _ => .ok ⟨0x1111⟩
  getSigner := fun _ _ => .ok ⟨1⟩
  send := fun _ _ _ => .ok ⟨7⟩
  getReceipt := fun _ => .ok ⟨0xABC⟩

/-- Like `okOracle` but the receipt carries a different hash, `0xDEF`. -/
def okOracle2 : Oracle where
  deploymentData := .ok ⟨⟨"0x1111"⟩⟩
  parseAddr := fun _ => .ok ⟨0x1111⟩
  getSigner := fun _ _ => .ok ⟨1⟩
  send := fun _ _ _ => .ok ⟨7⟩
  getReceipt := fun _ => .ok ⟨0xDEF⟩

/-- An oracle whose deployment resolution fails (e.g. the metadata service
is unreachable), so every submission errors. -/
def failOracleA : Oracle where
  deploymentData := .error "resolver unreachable"
  parseAddr := fun _ => .error "bad address"
  getSigner := fun _ _ => .error "bad key"
  send := fun _ _ _ => .error "net down"
  getReceipt := fun _ => .error "dropped"

/-- Like `failOracleA` but with a different resolver error message. -/
def failOracleB : Oracle where
  deploymentData := .error "boom B"
  parseAddr := fun _ => .error "bad address"
  getSigner := fun _ _ => .error "bad key"
  send := fun _ _ _ => .error "net down"
  getReceipt := fun _ => .error "dropped"

/-- An element selected by index below the length is in the list. -/
theorem getD_mem {α : Type} (l : List α) (i : Nat) (d : α) (h : i < l.length) :
    l.getD i d ∈ l := by
  rw [List.getD_eq_getElem l d h]
  exact List.getElem_mem h

/-- `create_new_task` never panics when the `PRIVATE_KEY` variable is
present: its only abnormal exits are uniform `err` results. -/
theorem create_new_task_no_panic (O : Oracle) (key rpc nm : String) :
    (create_new_task O (some key) rpc nm).outcome.isPanic = false := by
  unfold create_new_task
  repeat' split
  all_goals simp_all [StepOutcome.isPanic]

/-- With a fully present configuration, a dispatch cycle never panics. -/
theorem dispatchCycle_no_panic (O : Oracle) (u key : String) (r : Rng) :
    (dispatchCycle O ⟨some u, some key⟩ r).outcome.isPanic = false := by
  unfold dispatchCycle
  simpa using create_new_task_no_panic O key u (generate_random_name r).1

/-- With a fully present configuration, the loop never stops early: a run
of `n` ticks produces exactly `n` cycle records, whatever the outcomes. -/
theorem loopRun_length (O : Oracle) (u key : String) (r : Rng) (n : Nat) :
    (loopRun O ⟨some u, some key⟩ r n).length = n := by
  induction n generalizing r with
  | zero => rfl
  | succ n ih =>
    rw [loopRun, dispatchCycle_no_panic O u key r]
    simp [ih]

/-- Every record of a well-configured run is the record of a dispatch cycle
from some RNG state. -/
theorem mem_loopRun {O : Oracle} {u key : String} {r : Rng} {n : Nat}
    {c : CycleRecord} (h : c ∈ loopRun O ⟨some u, some key⟩ r n) :
    ∃ rs : Rng, c = dispatchCycle O ⟨some u, some key⟩ rs := by
  induction n generalizing r with
  | zero => simp [loopRun] at h
  | succ n ih =>
    rw [loopRun, dispatchCycle_no_panic O u key r] at h
    simp only [if_neg Bool.false_ne_true, List.mem_cons] at h
    rcases h with h | h
    · exact ⟨r, h⟩
    · exact ih h

/-- A failed submission prints nothing: the only `println!` in
`create_new_task` sits after the last fallible step. -/
theorem create_new_task_err_printed_nil (O : Oracle) (key? : Option String)
    (rpc nm e : String) (h : (create_new_task O key? rpc nm).outcome = .err e) :
    (create_new_task O key? rpc nm).printed = [] := by
  unfold create_new_task at h ⊢
  repeat' split
  all_goals simp_all

/-- Every call of `create_new_task` resolves the deployment record exactly
once, whether or not any step fails: the resolver call is the first
statement and is never repeated. -/
theorem create_new_task_resolve_count (O : Oracle) (key? : Option String)
    (rpc nm : String) :
    (create_new_task O key? rpc nm).calls.count ExtCall.resolveDeployment = 1 := by
  unfold create_new_task
  repeat' split
  all_goals simp [List.count_cons, List.count_nil]

/-- The signer is only ever constructed from the key and endpoint the call
was given: the credential binding is constant per call. -/
theorem create_new_task_signer_args (O : Oracle) (key? : Option String)
    (rpc nm k2 u2 : String)
    (h : ExtCall.getSigner k2 u2 ∈ (create_new_task O key? rpc nm).calls) :
    key? = some k2 ∧ u2 = rpc := by
  unfold create_new_task at h
  repeat' split at h
  all_goals simp_all

/-- Under a well-formed configuration a cycle record's log lines are the
info line followed by whatever the submission printed, and its calls and
outcome are those of the submission on the generated name. -/
theorem dispatchCycle_eq (O : Oracle) (u key : String) (r : Rng) :
    dispatchCycle O ⟨some u, some key⟩ r =
      ⟨(generate_random_name r).1,
        ("Creating new task with name: " ++ (generate_random_name r).1) ::
          (create_new_task O (some key) u (generate_random_name r).1).printed,
        (create_new_task O (some key) u (generate_random_name r).1).calls,
        (create_new_task O (some key) u (generate_random_name r).1).outcome,
        (generate_random_name r).2⟩ := by
  rfl

/-- Index layout of the event trace: for every cycle `j` still inside the
trace, position `3 j` holds its tick (at time `6 (k + j)`), position
`3 j + 1` the start of its single submission, and position `3 j + 2` the
resolution of that submission's outcome. -/
theorem eventTraceFrom_layout (O : Oracle) (u key : String) :
    ∀ (n j k : Nat) (r : Rng), j < n →
      (∃ t, (eventTraceFrom O u key r k n).get? (3 * j) = some (.tick (k + j) t) ∧
        t = 6 * (k + j)) ∧
      (∃ s, (eventTraceFrom O u key r k n).get? (3 * j + 1) = some (.invokeStart (k + j) s)) ∧
      (∃ o, (eventTraceFrom O u key r k n).get? (3 * j + 2) = some (.invokeEnd (k + j) o)) := by
  intro n
  induction n with
  | zero => intro j k r h; omega
  | succ n ih =>
    intro j k r h
    match j with
    | 0 =>
      exact ⟨⟨6 * k, rfl, rfl⟩,
        ⟨(dispatchCycle O ⟨some u, some key⟩ r).name, rfl⟩,
        ⟨(dispatchCycle O ⟨some u, some key⟩ r).outcome, rfl⟩⟩
    | j + 1 =>
      have h3 : ∀ m : Nat, 3 * (j + 1) + m = (3 * j + m) + 3 := by omega
      rw [eventTraceFrom]
      have hlt : j < n := by omega
      have hk : k + (j + 1) = (k + 1) + j := by omega
      refine ⟨?_, ?_, ?_⟩
      · obtain ⟨t, ht, htv⟩ := (ih j (k + 1) _ hlt).1
        refine ⟨t, ?_, by omega⟩
        have h30 : 3 * (j + 1) = (3 * j) + 3 := by omega
        rw [h30]
        simpa [List.get?, hk] using ht
      · obtain ⟨s, hs⟩ := (ih j (k + 1) _ hlt).2.1
        refine ⟨s, ?_⟩
        rw [h3 1]
        simpa [List.get?, hk] using hs
      · obtain ⟨o, ho⟩ := (ih j (k + 1) _ hlt).2.2
        refine ⟨o, ?_⟩
        rw [h3 2]
        simpa [List.get?, hk] using ho

/-- Each cycle index has exactly one submission start in the trace (and
indices outside the run have none). -/
theorem eventTraceFrom_start_count (O : Oracle) (u key : String) :
    ∀ (n k : Nat) (r : Rng) (j : Nat),
      (eventTraceFrom O u key r k n).countP (isInvokeStartFor j) =
        if k ≤ j ∧ j < k + n then 1 else 0 := by
  intro n
  induction n with
  | zero =>
    intro k r j
    simp only [eventTraceFrom, List.countP_nil]
    split_ifs <;> omega
  | succ n ih =>
    intro k r j
    rw [eventTraceFrom]
    simp only [List.countP_cons, isInvokeStartFor]
    rw [ih (k + 1) (dispatchCycle O ⟨some u, some key⟩ r).rng j]
    rcases eq_or_ne k j with hkj | hkj
    · have hb : (k == j) = true := by simpa using hkj
      simp only [hb, Bool.false_eq_true, if_false, if_true, Nat.add_zero]
      split_ifs <;> omega
    · have hb : (k == j) = false := by simpa using hkj
      simp only [hb, Bool.false_eq_true, if_false, Nat.add_zero]
      split_ifs <;> omega

/-- C3: every task name returned by the Task Name Generator is
`<Adjective><Noun><N>` with no separators, where the adjective comes from
the fixed 5-element adjective pool, the noun from the fixed 5-element noun
pool, and `0 ≤ N < 1000`. -/
theorem task_name_shape (r : Rng) :
    ∃ adj ∈ adjectives, ∃ noun ∈ nouns, ∃ N : Nat, N < 1000 ∧
      (generate_random_name r).1 = adj ++ noun ++ toString N := by
  refine ⟨adjectives.getD (r.seed % 5) "", getD_mem _ _ _ ?_,
    nouns.getD (r.step.seed % 5) "", getD_mem _ _ _ ?_,
    r.step.step.seed % 1000, Nat.mod_lt _ (by norm_num), rfl⟩
  · simpa [adjectives] using Nat.mod_lt r.seed (show 0 < 5 by norm_num)
  · simpa [nouns] using Nat.mod_lt r.step.seed (show 0 < 5 by norm_num)

/-- C4: with the signing key present, `create_new_task` fails exactly when
the deployment record cannot be resolved, the deployment address is
malformed, signing fails, the network send fails, or the receipt is not
obtained; every such failure is surfaced to the caller through the single
uniform `err` channel (the `eyre` report), which carries no kind
distinction, and the function never exits any other abnormal way. -/
theorem submission_error_sources (O : Oracle) (key rpc nm : String) :
    ((∃ e, (create_new_task O (some key) rpc nm).outcome = StepOutcome.err e) ↔
      ((∃ e, O.deploymentData = .error e) ∨
       (∃ d e, O.deploymentData = .ok d ∧
         O.parseAddr d.addresses.swap_manager_service_manager = .error e) ∨
       (∃ d a e, O.deploymentData = .ok d ∧
         O.parseAddr d.addresses.swap_manager_service_manager = .ok a ∧
         O.getSigner key rpc = .error e) ∨
       (∃ d a s e, O.deploymentData = .ok d ∧
         O.parseAddr d.addresses.swap_manager_service_manager = .ok a ∧
         O.getSigner key rpc = .ok s ∧ O.send a s nm = .error e) ∨
       (∃ d a s p e, O.deploymentData = .ok d ∧
         O.parseAddr d.addresses.swap_manager_service_manager = .ok a ∧
         O.getSigner key rpc = .ok s ∧ O.send a s nm = .ok p ∧
         O.getReceipt p = .error e))) ∧
    (∀ m, (create_new_task O (some key) rpc nm).outcome ≠ StepOutcome.panicked m) := by
  constructor
  · unfold create_new_task
    cases hd : O.deploymentData with
    | error e => simp [hd]
    | ok d =>
      cases hp : O.parseAddr d.addresses.swap_manager_service_manager with
      | error e => simp [hd, hp]
      | ok a =>
        cases hs : O.getSigner key rpc with
        | error e => simp [hd, hp, hs]
        | ok s =>
          cases hn : O.send a s nm with
          | error e => simp [hd, hp, hs, hn]
          | ok p =>
            cases hr : O.getReceipt p with
            | error e => simp [hd, hp, hs, hn, hr]
            | ok t => simp [hd, hp, hs, hn, hr]
  · intro m h
    have := create_new_task_no_panic O key rpc nm
    rw [h] at this
    exact absurd this (by simp [StepOutcome.isPanic])

/-- Closed instance of C4: on an oracle whose resolver fails, the outcome
is the uniform error, never a panic. -/
theorem submission_error_sources_witness :
    (∃ e, (create_new_task failOracleA (some "0xkey") "http://localhost:8545"
      "QuickFox1").outcome = StepOutcome.err e) ∧
    (create_new_task failOracleA (some "0xkey") "http://localhost:8545"
      "QuickFox1").outcome ≠ StepOutcome.panicked "x" := by
  have h := submission_error_sources failOracleA "0xkey" "http://localhost:8545" "QuickFox1"
  exact ⟨h.1.mpr (Or.inl ⟨"resolver unreachable", rfl⟩), h.2 "x"⟩

/-- The calls of a well-configured cycle are those of its submission. -/
theorem dispatchCycle_calls (O : Oracle) (u key : String) (r : Rng) :
    (dispatchCycle O ⟨some u, some key⟩ r).calls =
      (create_new_task O (some key) u (generate_random_name r).1).calls := rfl

/-- `countResolve` over a cons. -/
theorem countResolve_cons (c : CycleRecord) (cs : List CycleRecord) :
    countResolve (c :: cs) =
      c.calls.count ExtCall.resolveDeployment + countResolve cs := rfl

/-- C1: per-cycle failure containment: however the Submission Client fails,
the error never escapes the Dispatch Loop — a well-configured run of `n`
ticks always contains exactly `n` cycles, and after any cycle whose
submission returned an error the next cycle still exists (the next tick
fired and dispatched a new submission). -/
theorem error_containment (O : Oracle) (u key : String) (r : Rng) (n : Nat) :
    (loopRun O ⟨some u, some key⟩ r n).length = n ∧
    ∀ j c e, (loopRun O ⟨some u, some key⟩ r n).get? j = some c →
      c.outcome = StepOutcome.err e → j + 1 < n →
        ∃ cN, (loopRun O ⟨some u, some key⟩ r n).get? (j + 1) = some cN := by
  refine ⟨loopRun_length O u key r n, ?_⟩
  intro j c e _ _ hj
  cases hgot : (loopRun O ⟨some u, some key⟩ r n).get? (j + 1) with
  | none =>
    have hle := List.get?_eq_none.mp hgot
    rw [loopRun_length O u key r n] at hle
    omega
  | some cN => exact ⟨cN, rfl⟩

/-- Closed instance of C1: after the failed first cycle of a run against an
unreachable resolver, the second cycle still dispatched. -/
theorem error_containment_witness :
    ∃ cN, (loopRun failOracleA ⟨some "http://localhost:8545", some "0xkey"⟩
      rng0 3).get? 1 = some cN :=
  (error_containment failOracleA "http://localhost:8545" "0xkey" rng0 3).2 0
    (dispatchCycle failOracleA ⟨some "http://localhost:8545", some "0xkey"⟩ rng0)
    "resolver unreachable" (by rfl) (by rfl) (by omega)

/-- C2: submissions are strictly sequential: every loop iteration starts
exactly one Submission Client invocation, and the start of iteration
`j + 1`'s invocation sits strictly after the event resolving iteration
`j`'s outcome in the trace, so a new submission is never issued while the
previous one is outstanding. -/
theorem sequential_submissions (O : Oracle) (u key : String) (r : Rng)
    (n j : Nat) (h : j + 1 < n) :
    ((eventTrace O u key r n).countP (isInvokeStartFor j) = 1) ∧
    (∃ o, (eventTrace O u key r n).get? (3 * j + 2) = some (Event.invokeEnd j o)) ∧
    (∃ s, (eventTrace O u key r n).get? (3 * (j + 1) + 1) =
      some (Event.invokeStart (j + 1) s)) ∧
    3 * j + 2 < 3 * (j + 1) + 1 := by
  refine ⟨?_, ?_, ?_, by omega⟩
  · rw [eventTrace, eventTraceFrom_start_count O u key n 0 r j]
    split_ifs with hc
    · rfl
    · omega
  · have hl := (eventTraceFrom_layout O u key n j 0 r (by omega)).2.2
    simpa using hl
  · have hl := (eventTraceFrom_layout O u key n (j + 1) 0 r (by omega)).2.1
    simpa using hl

/-- Closed instance of C2 at the first two cycles of a concrete run. -/
theorem sequential_submissions_witness :
    ((eventTrace okOracle "http://localhost:8545" "0xkey" rng0 2).countP
      (isInvokeStartFor 0) = 1) ∧
    (∃ o, (eventTrace okOracle "http://localhost:8545" "0xkey" rng0 2).get? 2 =
      some (Event.invokeEnd 0 o)) ∧
    (∃ s, (eventTrace okOracle "http://localhost:8545" "0xkey" rng0 2).get? 4 =
      some (Event.invokeStart 1 s)) ∧
    (2 : Nat) < 4 := by
  have h := sequential_submissions okOracle "http://localhost:8545" "0xkey" rng0 2 0
    (by omega)
  simpa using h

/-- C10: every cycle's sink output begins with the info log line containing
the generated task name, emitted before any Submission Client output and
present regardless of the submission's outcome, so every generated name is
observable even when the submission fails. -/
theorem name_logged_before_submission (O : Oracle) (u key : String) (r : Rng)
    (n : Nat) (c : CycleRecord) (h : c ∈ loopRun O ⟨some u, some key⟩ r n) :
    ∃ rest, c.logLines = ("Creating new task with name: " ++ c.name) :: rest := by
  obtain ⟨rs, rfl⟩ := mem_loopRun h
  rw [dispatchCycle_eq]
  exact ⟨_, rfl⟩

/-- Closed instance of C10 on a failing run: the name is still logged. -/
theorem name_logged_before_submission_witness :
    ∃ rest, (dispatchCycle failOracleA
        ⟨some "http://localhost:8545", some "0xkey"⟩ rng0).logLines =
      ("Creating new task with name: " ++ (dispatchCycle failOracleA
        ⟨some "http://localhost:8545", some "0xkey"⟩ rng0).name) :: rest :=
  name_logged_before_submission failOracleA "http://localhost:8545" "0xkey" rng0 1
    (dispatchCycle failOracleA ⟨some "http://localhost:8545", some "0xkey"⟩ rng0)
    (by decide)

/-- C5 counterexample: a failing dispatch cycle emits no error report.
The sink holds only the pre-invocation info line, and it is bit-for-bit
identical for two oracles failing with different error messages, so none
of the emitted output can be reporting the error (the `Result` is dropped
by `let _ = ...` with no logging). -/
theorem error_not_reported_counterexample :
    sinkLines (loopRun failOracleA cfg0 rng0 1) =
      sinkLines (loopRun failOracleB cfg0 rng0 1) ∧
    sinkLines (loopRun failOracleA cfg0 rng0 1) =
      ["Creating new task with name: QuickCat466"] ∧
    (loopRun failOracleA cfg0 rng0 1).map (fun c => c.outcome) =
      [StepOutcome.err "resolver unreachable"] ∧
    (loopRun failOracleB cfg0 rng0 1).map (fun c => c.outcome) =
      [StepOutcome.err "boom B"] :=
  ⟨rfl, rfl, rfl, rfl⟩

/-- C5 amended: when a submission fails, the Dispatch Loop discards the
error silently: the failing cycle's entire sink output is exactly the
pre-invocation info line, with no error message emitted; the loop then
continues with the next tick. -/
theorem error_discarded_silently (O : Oracle) (u key : String) (r : Rng)
    (n : Nat) (c : CycleRecord) (e : String)
    (hmem : c ∈ loopRun O ⟨some u, some key⟩ r n)
    (herr : c.outcome = StepOutcome.err e) :
    c.logLines = ["Creating new task with name: " ++ c.name] := by
  obtain ⟨rs, rfl⟩ := mem_loopRun hmem
  rw [dispatchCycle_eq] at herr ⊢
  simp only at herr ⊢
  rw [create_new_task_err_printed_nil O (some key) u _ e herr]

/-- Closed instance of the amended C5: the failed cycle logged only its
info line. -/
theorem error_discarded_silently_witness :
    (dispatchCycle failOracleA ⟨some "http://localhost:8545", some "0xkey"⟩
      rng0).logLines =
    ["Creating new task with name: " ++ (dispatchCycle failOracleA
      ⟨some "http://localhost:8545", some "0xkey"⟩ rng0).name] :=
  error_discarded_silently failOracleA "http://localhost:8545" "0xkey" rng0 1
    (dispatchCycle failOracleA ⟨some "http://localhost:8545", some "0xkey"⟩ rng0)
    "resolver unreachable" (by decide) (by rfl)

/-- C6 counterexample: two successful submissions whose receipts carry
different transaction hashes return exactly the same value to the caller —
the Rust function returns `Ok(())` — so the returned value contains no
transaction identifier; the identifier only reaches the printed output. -/
theorem outcome_has_no_hash_counterexample :
    (create_new_task okOracle (some "0xkey") "http://localhost:8545" "T").outcome =
      (create_new_task okOracle2 (some "0xkey") "http://localhost:8545" "T").outcome ∧
    (create_new_task okOracle (some "0xkey") "http://localhost:8545" "T").outcome =
      StepOutcome.ok ∧
    (create_new_task okOracle (some "0xkey") "http://localhost:8545" "T").printed ≠
      (create_new_task okOracle2 (some "0xkey") "http://localhost:8545" "T").printed :=
  ⟨rfl, rfl, by decide⟩

/-- C6 amended: on success the Submission Client prints the receipt's
transaction identifier as a side effect, but returns to its caller only
the unit success signal (`Ok(())`); the identifier is not part of the
returned value. -/
theorem success_prints_hash (O : Oracle) (key rpc nm : String)
    (d : DeploymentData) (a : Address) (s : Signer) (p : PendingTx) (t : Receipt)
    (hd : O.deploymentData = .ok d)
    (hp : O.parseAddr d.addresses.swap_manager_service_manager = .ok a)
    (hs : O.getSigner key rpc = .ok s)
    (hn : O.send a s nm = .ok p)
    (hr : O.getReceipt p = .ok t) :
    (create_new_task O (some key) rpc nm).outcome = StepOutcome.ok ∧
    (create_new_task O (some key) rpc nm).printed =
      ["Transaction successfull with tx : " ++ toString t.transaction_hash] := by
  unfold create_new_task
  simp [hd, hp, hs, hn, hr]

/-- Closed instance of the amended C6 on the stub oracle with receipt hash
`0xABC` (2748). -/
theorem success_prints_hash_witness :
    (create_new_task okOracle (some "0xkey") "http://localhost:8545" "T").outcome =
      StepOutcome.ok ∧
    (create_new_task okOracle (some "0xkey") "http://localhost:8545" "T").printed =
      ["Transaction successfull with tx : " ++ toString (2748 : Nat)] :=
  success_prints_hash okOracle "0xkey" "http://localhost:8545" "T"
    ⟨⟨"0x1111"⟩⟩ ⟨0x1111⟩ ⟨1⟩ ⟨7⟩ ⟨0xABC⟩ rfl rfl rfl rfl rfl

/-- C7 counterexample: a two-cycle run resolves the deployment record
twice — `get_anvil_swap_manager_deployment_data` runs at the top of every
`create_new_task` call — so it is not resolved exactly once per process. -/
theorem deployment_re_resolved_counterexample :
    countResolve (loopRun okOracle cfg0 rng0 2) = 2 ∧ (2 : Nat) ≠ 1 :=
  ⟨rfl, by omega⟩

/-- C7 amended: the deployment record is re-resolved by the Submission
Client on every dispatch cycle — a run of `n` cycles performs exactly `n`
resolutions — while the lazily read credentials stay constant: every
signer construction across the run uses the same key and endpoint. -/
theorem deployment_resolution_per_cycle (O : Oracle) (u key : String)
    (r : Rng) (n : Nat) :
    countResolve (loopRun O ⟨some u, some key⟩ r n) = n ∧
    (∀ c ∈ loopRun O ⟨some u, some key⟩ r n, ∀ k2 u2 : String,
      ExtCall.getSigner k2 u2 ∈ c.calls → k2 = key ∧ u2 = u) := by
  constructor
  · induction n generalizing r with
    | zero => rfl
    | succ n ih =>
      rw [loopRun, dispatchCycle_no_panic O u key r]
      simp only [Bool.false_eq_true, if_false, countResolve_cons, dispatchCycle_calls]
      rw [create_new_task_resolve_count, ih]
      omega
  · intro c hmem k2 u2 hcall
    obtain ⟨rs, rfl⟩ := mem_loopRun hmem
    rw [dispatchCycle_calls] at hcall
    have h := create_new_task_signer_args O (some key) u _ k2 u2 hcall
    exact ⟨(Option.some.inj h.1).symm, h.2⟩

/-- Closed instance of the amended C7: two cycles, two resolutions, and
the signer of the first cycle was built from the constant credentials. -/
theorem deployment_resolution_per_cycle_witness :
    countResolve (loopRun okOracle
      ⟨some "http://localhost:8545", some "0xkey"⟩ rng0 2) = 2 ∧
    ("0xkey" = "0xkey" ∧ "http://localhost:8545" = "http://localhost:8545") :=
  ⟨(deployment_resolution_per_cycle okOracle "http://localhost:8545" "0xkey" rng0 2).1,
    (deployment_resolution_per_cycle okOracle "http://localhost:8545" "0xkey" rng0 2).2
      (dispatchCycle okOracle ⟨some "http://localhost:8545", some "0xkey"⟩ rng0)
      (by decide) "0xkey" "http://localhost:8545" (by decide)⟩

/-- A failed deployment resolution short-circuits `create_new_task` at its
first statement, before the `KEY` static is ever dereferenced, whatever the
key's presence. -/
theorem create_new_task_resolver_err (O : Oracle) (key? : Option String)
    (rpc nm e : String) (hd : O.deploymentData = Except.error e) :
    create_new_task O key? rpc nm =
      ⟨StepOutcome.err e, [], [ExtCall.resolveDeployment]⟩ := by
  unfold create_new_task
  rw [hd]

/-- With `PRIVATE_KEY` missing, `create_new_task` reaches the `KEY`
dereference — and panics there — exactly after deployment resolution and
address parsing have succeeded. -/
theorem create_new_task_missing_key (O : Oracle) (rpc nm : String)
    (d : DeploymentData) (a : Address) (hd : O.deploymentData = Except.ok d)
    (hp : O.parseAddr d.addresses.swap_manager_service_manager = Except.ok a) :
    create_new_task O none rpc nm =
      ⟨StepOutcome.panicked "failed to retrieve private key", [],
        [ExtCall.resolveDeployment]⟩ := by
  unfold create_new_task
  simp [hd, hp]

/-- A cycle with `RPC_URL` present but `PRIVATE_KEY` missing, spelled out:
the tick fires, the name is generated and logged, and the submission runs
with no key. -/
theorem dispatchCycle_missing_key_eq (O : Oracle) (u : String) (r : Rng) :
    dispatchCycle O ⟨some u, none⟩ r =
      ⟨(generate_random_name r).1,
        ("Creating new task with name: " ++ (generate_random_name r).1) ::
          (create_new_task O none u (generate_random_name r).1).printed,
        (create_new_task O none u (generate_random_name r).1).calls,
        (create_new_task O none u (generate_random_name r).1).outcome,
        (generate_random_name r).2⟩ := by
  rfl

/-- With `PRIVATE_KEY` missing and every deployment resolution failing, the
missing key never manifests: each cycle errs before the key is touched and
the loop keeps running. -/
theorem loopRun_missing_key_resolver_err (O : Oracle) (u e : String)
    (hd : O.deploymentData = Except.error e) :
    ∀ (n : Nat) (r : Rng), (loopRun O ⟨some u, none⟩ r n).length = n ∧
      ∀ c ∈ loopRun O ⟨some u, none⟩ r n, c.outcome = StepOutcome.err e := by
  intro n
  induction n with
  | zero => intro r; exact ⟨rfl, by simp [loopRun]⟩
  | succ n ih =>
    intro r
    have hc : (dispatchCycle O ⟨some u, none⟩ r).outcome = StepOutcome.err e := by
      rw [dispatchCycle_missing_key_eq,
        create_new_task_resolver_err O none u (generate_random_name r).1 e hd]
    have hpn : (dispatchCycle O ⟨some u, none⟩ r).outcome.isPanic = false := by
      rw [hc]
      rfl
    rw [loopRun, hpn]
    simp only [Bool.false_eq_true, if_false]
    refine ⟨?_, ?_⟩
    · simp [(ih ((dispatchCycle O ⟨some u, none⟩ r).rng)).1]
    · intro c hmem
      rcases List.mem_cons.mp hmem with h1 | h1
      · rw [h1]; exact hc
      · exact (ih _).2 c h1

/-- C8 counterexample: with `RPC_URL` missing from the environment the
process does not refuse to start: the loop runs, the first tick fires, the
first cycle generates and logs a task name, and only then does the missing
configuration manifest — as a panic inside dispatch cycle 0 (a 3-tick run
contains exactly that one cycle). -/
theorem config_error_in_cycle_counterexample :
    (loopRun failOracleA ⟨none, some "0xkey"⟩ rng0 3).length = 1 ∧
    (loopRun failOracleA ⟨none, some "0xkey"⟩ rng0 3).map (fun c => c.outcome) =
      [StepOutcome.panicked "failed to retrieve RPC URL"] ∧
    sinkLines (loopRun failOracleA ⟨none, some "0xkey"⟩ rng0 3) =
      ["Creating new task with name: QuickCat466"] :=
  ⟨rfl, rfl, rfl⟩

/-- C8 amended: a configuration error does not prevent startup and can
only manifest inside a dispatch cycle, because the statics are lazily
initialized.  With `RPC_URL` missing, the loop starts, the first tick
fires, the first cycle generates and logs its task name, and the error
manifests as a panic inside that cycle, after which no further cycle runs.
With `PRIVATE_KEY` missing the loop starts too, and the key is only
dereferenced inside `create_new_task` after deployment resolution and
address parsing succeed: if they succeed the first cycle panics there,
while if every resolution fails the missing key never manifests at all —
each cycle errs before the key is touched and the loop continues. -/
theorem config_error_manifests_lazily (O : Oracle) (u key : String) (r : Rng)
    (n : Nat) (h : 1 ≤ n) :
    (loopRun O ⟨none, some key⟩ r n = [dispatchCycle O ⟨none, some key⟩ r] ∧
     (dispatchCycle O ⟨none, some key⟩ r).outcome =
       StepOutcome.panicked "failed to retrieve RPC URL" ∧
     (dispatchCycle O ⟨none, some key⟩ r).logLines =
       ["Creating new task with name: " ++
         (dispatchCycle O ⟨none, some key⟩ r).name]) ∧
    (∀ e, O.deploymentData = Except.error e →
      (loopRun O ⟨some u, none⟩ r n).length = n ∧
      ∀ c ∈ loopRun O ⟨some u, none⟩ r n, c.outcome = StepOutcome.err e) ∧
    (∀ d a, O.deploymentData = Except.ok d →
      O.parseAddr d.addresses.swap_manager_service_manager = Except.ok a →
      loopRun O ⟨some u, none⟩ r n = [dispatchCycle O ⟨some u, none⟩ r] ∧
      (dispatchCycle O ⟨some u, none⟩ r).outcome =
        StepOutcome.panicked "failed to retrieve private key" ∧
      (dispatchCycle O ⟨some u, none⟩ r).logLines =
        ["Creating new task with name: " ++
          (dispatchCycle O ⟨some u, none⟩ r).name]) := by
  obtain ⟨m, rfl⟩ : ∃ m, n = m + 1 := ⟨n - 1, by omega⟩
  refine ⟨⟨rfl, rfl, rfl⟩, ?_, ?_⟩
  · intro e hd
    exact loopRun_missing_key_resolver_err O u e hd (m + 1) r
  · intro d a hd hp
    have hck : create_new_task O none u (generate_random_name r).1 =
        ⟨StepOutcome.panicked "failed to retrieve private key", [],
          [ExtCall.resolveDeployment]⟩ :=
      create_new_task_missing_key O u (generate_random_name r).1 d a hd hp
    have hc : (dispatchCycle O ⟨some u, none⟩ r).outcome =
        StepOutcome.panicked "failed to retrieve private key" := by
      rw [dispatchCycle_missing_key_eq, hck]
    refine ⟨?_, hc, ?_⟩
    · rw [loopRun]
      have hpn : (dispatchCycle O ⟨some u, none⟩ r).outcome.isPanic = true := by
        rw [hc]
        rfl
      rw [hpn]
      simp
    · rw [dispatchCycle_missing_key_eq, hck]

/-- Closed instance of the amended C8: with `RPC_URL` missing a 2-tick run
against a failing resolver panics in its only cycle; with `PRIVATE_KEY`
missing the same run never panics (two cycles, both erring before the key
is read), while against a fully succeeding oracle the first cycle panics
at the key dereference. -/
theorem config_error_manifests_lazily_witness :
    (loopRun failOracleA ⟨none, some "0xkey"⟩ rng0 2 =
      [dispatchCycle failOracleA ⟨none, some "0xkey"⟩ rng0] ∧
     (dispatchCycle failOracleA ⟨none, some "0xkey"⟩ rng0).outcome =
       StepOutcome.panicked "failed to retrieve RPC URL") ∧
    (loopRun failOracleA ⟨some "http://localhost:8545", none⟩ rng0 2).length = 2 ∧
    (dispatchCycle okOracle ⟨some "http://localhost:8545", none⟩ rng0).outcome =
      StepOutcome.panicked "failed to retrieve private key" := by
  have hA := config_error_manifests_lazily failOracleA "http://localhost:8545"
    "0xkey" rng0 2 (by omega)
  have hB := config_error_manifests_lazily okOracle "http://localhost:8545"
    "0xkey" rng0 2 (by omega)
  refine ⟨⟨hA.1.1, hA.1.2.1⟩, (hA.2.1 "resolver unreachable" rfl).1, ?_⟩
  exact (hB.2.2 ⟨⟨"0x1111"⟩⟩ ⟨0x1111⟩ rfl rfl).2.1

/-- C9 counterexample: the first tick of the run completes at time 0
(`tokio::time::interval`'s first tick is immediate), so the first dispatch
happens at startup, before any full 6-second interval has elapsed. -/
theorem immediate_first_dispatch_counterexample :
    (eventTrace okOracle "http://localhost:8545" "0xkey" rng0 1).get? 0 =
      some (Event.tick 0 0) ∧ (0 : Nat) < 6 :=
  ⟨rfl, by omega⟩

/-- C9 amended: there is no startup delay: the loop's first tick completes
immediately at time 0 and is directly followed by the first dispatch; only
subsequent ticks are a full interval apart (tick `j` at time `6 j`). -/
theorem first_dispatch_immediate (O : Oracle) (u key : String) (r : Rng)
    (n : Nat) (h : 1 ≤ n) :
    ((eventTrace O u key r n).get? 0 = some (Event.tick 0 0)) ∧
    (∃ s, (eventTrace O u key r n).get? 1 = some (Event.invokeStart 0 s)) ∧
    (∀ j, j < n → ∃ t, (eventTrace O u key r n).get? (3 * j) =
      some (Event.tick j t) ∧ t = 6 * j) := by
  refine ⟨?_, ?_, ?_⟩
  · obtain ⟨t, ht, htv⟩ := (eventTraceFrom_layout O u key n 0 0 r (by omega)).1
    subst htv
    simpa using ht
  · have hl := (eventTraceFrom_layout O u key n 0 0 r (by omega)).2.1
    simpa using hl
  · intro j hj
    have hl := (eventTraceFrom_layout O u key n j 0 r hj).1
    simpa using hl

/-- Closed instance of the amended C9 on a concrete 1-tick run. -/
theorem first_dispatch_immediate_witness :
    ((eventTrace okOracle "http://localhost:8545" "0xkey" rng0 1).get? 0 =
      some (Event.tick 0 0)) ∧
    (∃ s, (eventTrace okOracle "http://localhost:8545" "0xkey" rng0 1).get? 1 =
      some (Event.invokeStart 0 s)) ∧
    (∀ j, j < 1 → ∃ t, (eventTrace okOracle "http://localhost:8545" "0xkey"
      rng0 1).get? (3 * j) = some (Event.tick j t) ∧ t = 6 * j) :=
  first_dispatch_immediate okOracle "http://localhost:8545" "0xkey" rng0 1 (by omega)

end SpamTasks
